import Mathlib

/-!
Verification of the SurfSense indexing pipeline and retrieval formatter.

The definitions below are a shallow embedding of the Python sources under
`surfsense_backend/app/indexing_pipeline/` and
`surfsense_backend/app/agents/new_chat/tools/knowledge_base.py`.
Pure functions become Lean functions; the SQLAlchemy session becomes explicit
state passing over a committed store; collaborator calls (LLM summarizer,
embedder, chunker, commit outcomes) become explicit parameters; Python
exceptions become `Except` values.  The SHA-256 primitive is abstracted as a
function parameter `h : String → String`; theorems that need collision
freedom hypothesise `Function.Injective h`.
-/

/-! ## Decimal rendering of naturals (Python `str(int)` for non-negative ints) -/

/-- Fuel-bounded digit expansion (structural recursion keeps it kernel-reducible). -/
def natDigitsAux : ℕ → ℕ → List Char
  | 0, _ => []
  | fuel + 1, n =>
    if n < 10 then [Nat.digitChar n]
    else natDigitsAux fuel (n / 10) ++ [Nat.digitChar (n % 10)]

/-- Decimal digits of a natural number, most significant first.
Mirrors Python's `str(n)` for `n ≥ 0`, as used by f-string interpolation of
`search_space_id` in `document_hashing.py`. -/
def natDigits (n : ℕ) : List Char := natDigitsAux (n + 1) n

/-- Rendering of a natural number as a decimal string. -/
def natRepr (n : ℕ) : String := ⟨natDigits n⟩

theorem natDigitsAux_fuel_irrelevant (n : ℕ) : ∀ f, n < f → natDigitsAux f n = natDigits n := by
  induction n using Nat.strong_induction_on with
  | _ n ih =>
    intro f hf
    match f with
    | g + 1 =>
      by_cases h10 : n < 10
      · simp [natDigitsAux, natDigits, h10]
      · have hdiv : n / 10 < n := Nat.div_lt_self (by omega) (by omega)
        have e1 : natDigitsAux (g + 1) n =
            natDigitsAux g (n / 10) ++ [Nat.digitChar (n % 10)] := by
          simp [natDigitsAux, h10]
        have e2 : natDigits n = natDigitsAux n (n / 10) ++ [Nat.digitChar (n % 10)] := by
          simp [natDigits, natDigitsAux, h10]
        rw [e1, e2, ih (n / 10) hdiv g (by omega), ih (n / 10) hdiv n hdiv]

theorem natDigits_unfold (n : ℕ) :
    natDigits n = if n < 10 then [Nat.digitChar n]
      else natDigits (n / 10) ++ [Nat.digitChar (n % 10)] := by
  by_cases h10 : n < 10
  · simp [natDigits, natDigitsAux, h10]
  · have hdiv : n / 10 < n := Nat.div_lt_self (by omega) (by omega)
    have e1 : natDigits n = natDigitsAux n (n / 10) ++ [Nat.digitChar (n % 10)] := by
      simp [natDigits, natDigitsAux, h10]
    rw [e1, natDigitsAux_fuel_irrelevant (n / 10) n hdiv, if_neg h10]

/-- Decimal evaluation map, the left inverse used to prove `natDigits` injective. -/
def valDigits (l : List Char) : ℕ :=
  l.foldl (fun a c => 10 * a + (c.toNat - 48)) 0

theorem digitChar_toNat_of_lt {n : ℕ} (h : n < 10) :
    (Nat.digitChar n).toNat = n + 48 := by
  interval_cases n <;> rfl

theorem valDigits_append (l : List Char) (c : Char) :
    valDigits (l ++ [c]) = 10 * valDigits l + (c.toNat - 48) := by
  unfold valDigits
  rw [List.foldl_append]
  rfl

theorem valDigits_natDigits (n : ℕ) : valDigits (natDigits n) = n := by
  induction n using Nat.strong_induction_on with
  | _ n ih =>
    rw [natDigits_unfold]
    by_cases h : n < 10
    · simp only [h, if_pos]
      unfold valDigits
      simp [List.foldl, digitChar_toNat_of_lt h]
    · simp only [h, if_neg, if_false]
      rw [valDigits_append]
      rw [ih (n / 10) (Nat.div_lt_self (by omega) (by omega))]
      rw [digitChar_toNat_of_lt (Nat.mod_lt n (by omega))]
      omega

theorem natDigits_injective : Function.Injective natDigits := by
  intro a b hab
  have := valDigits_natDigits a
  rw [hab, valDigits_natDigits] at this
  exact this.symm

theorem digitChar_ne_colon {n : ℕ} (h : n < 10) : Nat.digitChar n ≠ ':' := by
  interval_cases n <;> decide

theorem natDigits_no_colon (n : ℕ) : ':' ∉ natDigits n := by
  induction n using Nat.strong_induction_on with
  | _ n ih =>
    rw [natDigits_unfold]
    by_cases h : n < 10
    · simp only [h, if_pos, List.mem_singleton]
      exact fun hc => digitChar_ne_colon h hc.symm
    · simp only [h, if_neg, if_false, List.mem_append, List.mem_singleton]
      rintro (hc | hc)
      · exact ih (n / 10) (Nat.div_lt_self (by omega) (by omega)) hc
      · exact digitChar_ne_colon (Nat.mod_lt n (by omega)) hc.symm

/-! ## Splitting strings at a separator-free boundary -/

/-- If two decompositions `a ++ ':' :: b = c ++ ':' :: d` agree and neither
`a` nor `c` contains the separator, the decompositions coincide. -/
theorem split_at_colon : ∀ {a c : List Char} {b d : List Char},
    ':' ∉ a → ':' ∉ c → a ++ ':' :: b = c ++ ':' :: d → a = c ∧ b = d := by
  intro a
  induction a with
  | nil =>
    intro c b d _ hc heq
    cases c with
    | nil => simpa using heq
    | cons y ys =>
      simp only [List.nil_append, List.cons_append, List.cons.injEq] at heq
      exact absurd (by simp [← heq.1]) hc
  | cons x xs ih =>
    intro c b d ha hc heq
    cases c with
    | nil =>
      simp only [List.cons_append, List.nil_append, List.cons.injEq] at heq
      exact absurd (by simp [heq.1]) ha
    | cons y ys =>
      simp only [List.cons_append, List.cons.injEq] at heq
      have hxs : ':' ∉ xs := fun hm => ha (List.mem_cons_of_mem _ hm)
      have hys : ':' ∉ ys := fun hm => hc (List.mem_cons_of_mem _ hm)
      obtain ⟨h1, h2⟩ := ih hxs hys heq.2
      exact ⟨by rw [heq.1, h1], h2⟩

theorem str_data_append : ∀ (a b : String), (a ++ b).data = a.data ++ b.data
  | ⟨_⟩, ⟨_⟩ => rfl

/-! ## Document types and connector documents

`DocumentType` lives in the `app.db` module, which is not part of the sources
in scope (only its importers are).  Modelled from the spec: a closed set of
named document/connector types whose string value equals the enum member name
(the connector identifiers listed in `knowledge_base.py` follow this shape).
A representative subset of members suffices for the claims. -/
inductive DocumentType
  | EXTENSION
  | FILE
  | SLACK_CONNECTOR
  | NOTION_CONNECTOR
  | GITHUB_CONNECTOR
  | CLICKUP_CONNECTOR
  | CRAWLED_URL
  | NOTE
  deriving DecidableEq

/-- The `.value` string of a `DocumentType` member (equal to its name). -/
def DocumentType.value : DocumentType → String
  | .EXTENSION => "EXTENSION"
  | .FILE => "FILE"
  | .SLACK_CONNECTOR => "SLACK_CONNECTOR"
  | .NOTION_CONNECTOR => "NOTION_CONNECTOR"
  | .GITHUB_CONNECTOR => "GITHUB_CONNECTOR"
  | .CLICKUP_CONNECTOR => "CLICKUP_CONNECTOR"
  | .CRAWLED_URL => "CRAWLED_URL"
  | .NOTE => "NOTE"

theorem documentType_value_injective : Function.Injective DocumentType.value := by
  intro a b
  cases a <;> cases b <;> simp [DocumentType.value]

theorem documentType_value_no_colon (t : DocumentType) : ':' ∉ t.value.data := by
  cases t <;> decide

/-- Free-form metadata map (modelled as an ordered string-keyed map with
string values, the shape exercised by the repository's tests). -/
abbrev Metadata := List (String × String)

/-- `ConnectorDocument` from `connector_document.py`.

Exactly the fields declared by the pydantic model in the source: it declares
NO `fallback_summary` field (though `indexing_pipeline_service.index`, the
file-upload adapter and the integration tests all use one). -/
structure ConnectorDocument where
  title : String
  source_markdown : String
  unique_id : String
  document_type : DocumentType
  search_space_id : ℕ
  should_summarize : Bool := true
  should_use_code_chunker : Bool := false
  metadata : Metadata := []
  connector_id : ℕ
  created_by_id : String
  deriving DecidableEq

/-- Pydantic construction of a `ConnectorDocument` with a `fallback_summary=...`
keyword argument.  The model declares no such field and uses pydantic's
default `extra='ignore'` configuration, so the supplied value is silently
dropped. -/
def buildConnectorDocument (d : ConnectorDocument) (fallbackSupplied : Option String) :
    ConnectorDocument :=
  let _ := fallbackSupplied
  d

/-! ## Content identity (`document_hashing.py`) -/

/-- `compute_unique_identifier_hash`: hash of
`f"{doc.document_type.value}:{doc.unique_id}:{doc.search_space_id}"`.
The SHA-256-hex primitive is the parameter `h`. -/
def compute_unique_identifier_hash (h : String → String) (doc : ConnectorDocument) : String :=
  h (doc.document_type.value ++ ":" ++ doc.unique_id ++ ":" ++ natRepr doc.search_space_id)

/-- `compute_content_hash`: hash of `f"{doc.search_space_id}:{doc.source_markdown}"`. -/
def compute_content_hash (h : String → String) (doc : ConnectorDocument) : String :=
  h (natRepr doc.search_space_id ++ ":" ++ doc.source_markdown)

theorem identity_combined_injective {d1 d2 : ConnectorDocument}
    (heq : d1.document_type.value ++ ":" ++ d1.unique_id ++ ":" ++ natRepr d1.search_space_id =
      d2.document_type.value ++ ":" ++ d2.unique_id ++ ":" ++ natRepr d2.search_space_id) :
    d1.document_type = d2.document_type ∧ d1.unique_id = d2.unique_id ∧
      d1.search_space_id = d2.search_space_id := by
  have hdata := congrArg String.data heq
  simp only [str_data_append] at hdata
  simp only [show (":" : String).data = [':'] from rfl, List.append_assoc,
    List.singleton_append] at hdata
  obtain ⟨ht, hrest⟩ := split_at_colon (documentType_value_no_colon d1.document_type)
    (documentType_value_no_colon d2.document_type) hdata
  have hshape : ∀ (u s : List Char), (u ++ ':' :: s).reverse = s.reverse ++ ':' :: u.reverse := by
    intro u s
    simp
  have hrest2 : d1.unique_id.data ++ ':' :: (natRepr d1.search_space_id).data =
      d2.unique_id.data ++ ':' :: (natRepr d2.search_space_id).data := hrest
  have hrev := congrArg List.reverse hrest2
  rw [hshape, hshape] at hrev
  have hnc1 : ':' ∉ (natRepr d1.search_space_id).data.reverse := by
    simpa using natDigits_no_colon d1.search_space_id
  have hnc2 : ':' ∉ (natRepr d2.search_space_id).data.reverse := by
    simpa using natDigits_no_colon d2.search_space_id
  obtain ⟨hs, hu⟩ := split_at_colon hnc1 hnc2 hrev
  refine ⟨documentType_value_injective (String.ext ht), ?_, ?_⟩
  · exact String.ext (List.reverse_injective hu)
  · exact natDigits_injective (List.reverse_injective hs)

/-- C5 core: the identity hash (with an injective hash primitive) is equal
exactly when the three identity components are equal. -/
theorem identity_hash_eq_iff (h : String → String) (hinj : Function.Injective h)
    (d1 d2 : ConnectorDocument) :
    compute_unique_identifier_hash h d1 = compute_unique_identifier_hash h d2 ↔
      d1.document_type = d2.document_type ∧ d1.unique_id = d2.unique_id ∧
        d1.search_space_id = d2.search_space_id := by
  constructor
  · intro heq
    exact identity_combined_injective (hinj heq)
  · rintro ⟨h1, h2, h3⟩
    unfold compute_unique_identifier_hash
    rw [h1, h2, h3]

/-! ## Document store and status machine

The `Document`/`Chunk` ORM entities, `DocumentStatus` and the SQLAlchemy
session live in `app.db`, which is not among the sources in scope.
Modelled from the spec: `DocumentStatus` is a tagged state
`{state: pending|processing|ready|failed, reason?: string}`; the store holds
Document rows (with owned chunk rows) and supports transactional
commit/rollback, queries running against the session's working state. -/

inductive DocState
  | pending
  | processing
  | ready
  | failed
  deriving DecidableEq

/-- Modelled from the spec: persisted status shape
`{ "state": ..., "reason": string? }`. -/
structure DocumentStatus where
  state : DocState
  reason : Option String := none
  deriving DecidableEq

def DocumentStatus.pending : DocumentStatus := ⟨.pending, none⟩

def DocumentStatus.processing : DocumentStatus := ⟨.processing, none⟩

def DocumentStatus.ready : DocumentStatus := ⟨.ready, none⟩

def DocumentStatus.failed (reason : String) : DocumentStatus := ⟨.failed, some reason⟩

/-- `DocumentStatus.is_state(status, target)`. -/
def DocumentStatus.is_state (s : DocumentStatus) (target : DocState) : Bool :=
  s.state == target

/-- Embedding vectors (`embed(text) -> vector`); the numeric contents are
irrelevant to the claims. -/
abbrev Embedding := List ℤ

/-- A persisted `Chunk` row (content + embedding), owned by a document. -/
structure ChunkRow where
  content : String
  embedding : Embedding
  deriving DecidableEq

/-- A persisted `Document` row, with the columns touched by the pipeline. -/
structure DocRow where
  id : ℕ
  title : String
  document_type : DocumentType
  content : String
  content_hash : String
  unique_identifier_hash : String
  source_markdown : String
  document_metadata : Metadata
  search_space_id : ℕ
  connector_id : ℕ
  created_by_id : String
  embedding : Option Embedding := none
  status : DocumentStatus
  updated_at : ℕ
  chunks : List ChunkRow := []
  deriving DecidableEq

/-- The committed table of Document rows, in insertion order, plus the next
primary key to assign. -/
structure Store where
  rows : List DocRow
  nextId : ℕ
  deriving DecidableEq

/-- Write back a mutated ORM row (rows are keyed by primary key). -/
def updateRow (rows : List DocRow) (r : DocRow) : List DocRow :=
  rows.map (fun x => if x.id == r.id then r else x)

/-! ## `IndexingPipelineService.prepare_for_indexing` -/

/-- Outcome of the single batch-level `session.commit()`:
success, a uniqueness-constraint violation raised by a concurrent writer
(`IntegrityError`), or any other commit-time failure. -/
inductive CommitOutcome
  | ok
  | integrityError
  | otherError
  deriving DecidableEq

/-- Session state threaded through the per-document loop of
`prepare_for_indexing`: working rows (uncommitted changes visible to
queries via autoflush), next id, `seen_hashes`, and the ids of the rows
appended to `documents`. -/
structure PrepState where
  rows : List DocRow
  nextId : ℕ
  seen : List String
  returnedIds : List ℕ
  deriving DecidableEq

/-- One iteration of the `for connector_doc in connector_docs` loop in
`prepare_for_indexing`. -/
def prepareStep (h : String → String) (now : ℕ) (s : PrepState) (cd : ConnectorDocument) :
    PrepState :=
  let uih := compute_unique_identifier_hash h cd
  let chash := compute_content_hash h cd
  if uih ∈ s.seen then s
  else
    let s1 : PrepState := { s with seen := uih :: s.seen }
    match s1.rows.find? (fun r => r.unique_identifier_hash == uih) with
    | some existing =>
      if existing.content_hash == chash then
        let r1 := if existing.title ≠ cd.title
          then { existing with title := cd.title, updated_at := now } else existing
        if !(r1.status.is_state .ready) then
          let r2 := { r1 with status := DocumentStatus.pending, updated_at := now }
          { s1 with rows := updateRow s1.rows r2, returnedIds := s1.returnedIds ++ [r2.id] }
        else
          { s1 with rows := updateRow s1.rows r1 }
      else
        let r2 := { existing with
          title := cd.title
          content_hash := chash
          source_markdown := cd.source_markdown
          document_metadata := cd.metadata
          updated_at := now
          status := DocumentStatus.pending }
        { s1 with rows := updateRow s1.rows r2, returnedIds := s1.returnedIds ++ [r2.id] }
    | none =>
      match s1.rows.find? (fun r => r.content_hash == chash) with
      | some _ => s1
      | none =>
        let d : DocRow := {
          id := s1.nextId
          title := cd.title
          document_type := cd.document_type
          content := "Pending..."
          content_hash := chash
          unique_identifier_hash := uih
          source_markdown := cd.source_markdown
          document_metadata := cd.metadata
          search_space_id := cd.search_space_id
          connector_id := cd.connector_id
          created_by_id := cd.created_by_id
          embedding := none
          status := DocumentStatus.pending
          updated_at := now
          chunks := [] }
        { s1 with
          rows := s1.rows ++ [d]
          nextId := s1.nextId + 1
          returnedIds := s1.returnedIds ++ [s1.nextId] }

/-- `prepare_for_indexing(connector_docs)`: run the per-document loop, then
commit once for the whole batch.  On `IntegrityError` or any other
commit-time failure, roll back and return the empty list; on success return
the appended `documents` (live ORM objects, i.e. their committed final
states). -/
def prepare_for_indexing (h : String → String) (now : ℕ) (st : Store)
    (connector_docs : List ConnectorDocument) (commit : CommitOutcome) :
    Store × List DocRow :=
  let fin := connector_docs.foldl (prepareStep h now) ⟨st.rows, st.nextId, [], []⟩
  match commit with
  | .ok => (⟨fin.rows, fin.nextId⟩,
      fin.returnedIds.filterMap (fun i => fin.rows.find? (fun r => r.id == i)))
  | .integrityError => (st, [])
  | .otherError => (st, [])

/-! ## Claims about `prepare_for_indexing` -/

/-- The `ConnectorDocument` built by the shared test fixture
`make_connector_document` with its default arguments. -/
def sampleDoc : ConnectorDocument := {
  title := "Test Document"
  source_markdown := "## Heading\n\nSome content."
  unique_id := "test-id-001"
  document_type := .CLICKUP_CONNECTOR
  search_space_id := 1
  connector_id := 1
  created_by_id := "00000000-0000-0000-0000-000000000001" }

/-- The fresh row inserted by `prepare_for_indexing` for a document not yet
in the store. -/
def newDoc (h : String → String) (now : ℕ) (cd : ConnectorDocument) : DocRow := {
  id := 0
  title := cd.title
  document_type := cd.document_type
  content := "Pending..."
  content_hash := compute_content_hash h cd
  unique_identifier_hash := compute_unique_identifier_hash h cd
  source_markdown := cd.source_markdown
  document_metadata := cd.metadata
  search_space_id := cd.search_space_id
  connector_id := cd.connector_id
  created_by_id := cd.created_by_id
  embedding := none
  status := DocumentStatus.pending
  updated_at := now
  chunks := [] }

theorem prepare_single_new (h : String → String) (now : ℕ) (d : ConnectorDocument) :
    prepare_for_indexing h now ⟨[], 0⟩ [d] .ok = (⟨[newDoc h now d], 1⟩, [newDoc h now d]) := by
  simp [prepare_for_indexing, prepareStep, List.find?, newDoc, List.filterMap]

/-- C6: if the single batch-level commit raises a uniqueness-constraint
violation (`IntegrityError`), the transaction is rolled back and the empty
list is returned; any other commit-time failure likewise rolls back and
returns the empty list. -/
theorem prepare_commit_failure_rolls_back (h : String → String) (now : ℕ) (st : Store)
    (docs : List ConnectorDocument) (c : CommitOutcome) (hc : c ≠ CommitOutcome.ok) :
    prepare_for_indexing h now st docs c = (st, []) := by
  cases c with
  | ok => exact absurd rfl hc
  | integrityError => rfl
  | otherError => rfl

theorem prepare_commit_failure_rolls_back_witness :
    CommitOutcome.integrityError ≠ CommitOutcome.ok ∧
      prepare_for_indexing id 0 ⟨[], 0⟩ [sampleDoc] .integrityError = (⟨[], 0⟩, []) :=
  ⟨by decide, prepare_commit_failure_rolls_back id 0 ⟨[], 0⟩ [sampleDoc]
    .integrityError (by decide)⟩

/-- C2 (counter-evaluation): calling `prepare_for_indexing([d])` twice with an
unchanged `d` and no intervening operation does NOT return `[]` the second
time: the row is still `pending` (not `ready`), so the "stuck, requeue"
branch resets it to pending and returns it again — contradicting the spec's
idempotence property and the repository's own test
`test_unchanged_document_is_skipped`. -/
theorem prepare_twice_returns_requeued_row :
    ((prepare_for_indexing id 1
        (prepare_for_indexing id 0 ⟨[], 0⟩ [sampleDoc] .ok).1 [sampleDoc] .ok).2.map
      (fun r => r.status)) = [DocumentStatus.pending] ∧
    (prepare_for_indexing id 1
        (prepare_for_indexing id 0 ⟨[], 0⟩ [sampleDoc] .ok).1 [sampleDoc] .ok).2 ≠ [] := by
  constructor
  · decide
  · decide

/-- C4: two connector documents in the same search space with different
unique ids but byte-identical source content: after the first has been
prepared, preparing the second returns the empty list and leaves the store
unchanged with exactly one Document row — no second row is created. -/
theorem dedup_by_content (h : String → String) (hinj : Function.Injective h)
    (now1 now2 : ℕ) (d1 d2 : ConnectorDocument)
    (hu : d1.unique_id ≠ d2.unique_id)
    (hm : d1.source_markdown = d2.source_markdown)
    (hs : d1.search_space_id = d2.search_space_id) :
    prepare_for_indexing h now2 (prepare_for_indexing h now1 ⟨[], 0⟩ [d1] .ok).1 [d2] .ok =
      ((prepare_for_indexing h now1 ⟨[], 0⟩ [d1] .ok).1, []) ∧
    (prepare_for_indexing h now1 ⟨[], 0⟩ [d1] .ok).1.rows.length = 1 := by
  have hch : compute_content_hash h d1 = compute_content_hash h d2 := by
    unfold compute_content_hash
    rw [hm, hs]
  have huih : compute_unique_identifier_hash h d1 ≠ compute_unique_identifier_hash h d2 := by
    intro he
    exact hu ((identity_hash_eq_iff h hinj d1 d2).mp he).2.1
  have hbeq1 : (compute_unique_identifier_hash h d1 == compute_unique_identifier_hash h d2)
      = false := beq_eq_false_iff_ne.mpr huih
  have hbeq2 : (compute_content_hash h d1 == compute_content_hash h d2) = true :=
    beq_iff_eq.mpr hch
  rw [prepare_single_new]
  refine ⟨?_, rfl⟩
  simp [prepare_for_indexing, prepareStep, List.find?, newDoc, hbeq1, hbeq2]

/-- C5: the identity hash (with a collision-free hash primitive) differs
exactly when at least one of (document_type, unique_id, search_space_id)
differs; when all three are equal the hashes are equal. -/
theorem identity_hash_determinism (h : String → String) (hinj : Function.Injective h)
    (d1 d2 : ConnectorDocument) :
    (compute_unique_identifier_hash h d1 ≠ compute_unique_identifier_hash h d2 ↔
      (d1.document_type ≠ d2.document_type ∨ d1.unique_id ≠ d2.unique_id ∨
        d1.search_space_id ≠ d2.search_space_id)) ∧
    (d1.document_type = d2.document_type → d1.unique_id = d2.unique_id →
      d1.search_space_id = d2.search_space_id →
      compute_unique_identifier_hash h d1 = compute_unique_identifier_hash h d2) := by
  constructor
  · rw [ne_eq, identity_hash_eq_iff h hinj d1 d2]
    tauto
  · intro h1 h2 h3
    exact (identity_hash_eq_iff h hinj d1 d2).mpr ⟨h1, h2, h3⟩

/-- The two same-content documents of the repository test
`test_same_content_from_different_source_is_skipped`. -/
def sharedDocA : ConnectorDocument := {
  title := "Test Document"
  source_markdown := "## Shared content"
  unique_id := "source-a"
  document_type := .CLICKUP_CONNECTOR
  search_space_id := 1
  connector_id := 1
  created_by_id := "00000000-0000-0000-0000-000000000001" }

def sharedDocB : ConnectorDocument := {
  title := "Test Document"
  source_markdown := "## Shared content"
  unique_id := "source-b"
  document_type := .CLICKUP_CONNECTOR
  search_space_id := 1
  connector_id := 1
  created_by_id := "00000000-0000-0000-0000-000000000001" }

theorem identity_hash_determinism_witness :
    ((compute_unique_identifier_hash id sharedDocA ≠ compute_unique_identifier_hash id sharedDocB ↔
      (sharedDocA.document_type ≠ sharedDocB.document_type ∨
        sharedDocA.unique_id ≠ sharedDocB.unique_id ∨
        sharedDocA.search_space_id ≠ sharedDocB.search_space_id)) ∧
    (sharedDocA.document_type = sharedDocB.document_type →
      sharedDocA.unique_id = sharedDocB.unique_id →
      sharedDocA.search_space_id = sharedDocB.search_space_id →
      compute_unique_identifier_hash id sharedDocA = compute_unique_identifier_hash id sharedDocB)) :=
  identity_hash_determinism id (fun _ _ hx => hx) sharedDocA sharedDocB

theorem dedup_by_content_witness :
    prepare_for_indexing id 1 (prepare_for_indexing id 0 ⟨[], 0⟩ [sharedDocA] .ok).1
        [sharedDocB] .ok =
      ((prepare_for_indexing id 0 ⟨[], 0⟩ [sharedDocA] .ok).1, []) ∧
    (prepare_for_indexing id 0 ⟨[], 0⟩ [sharedDocA] .ok).1.rows.length = 1 :=
  dedup_by_content id (fun _ _ hx => hx) 0 1 sharedDocA sharedDocB (by decide) rfl rfl

/-! ## Error taxonomy (`exceptions.py`) -/

/-- The litellm exception classes grouped in `RETRYABLE_LLM_ERRORS`. -/
inductive RetryableKind
  | rateLimit
  | timeout
  | serviceUnavailable
  | badGateway
  | internalServerError
  | apiConnection
  deriving DecidableEq

/-- The litellm exception classes grouped in `PERMANENT_LLM_ERRORS`. -/
inductive PermanentKind
  | authentication
  | permissionDenied
  | notFound
  | badRequest
  | unprocessableEntity
  | apiResponseValidation
  deriving DecidableEq

/-- The exception classes grouped in `EMBEDDING_ERRORS`. -/
inductive EmbeddingKind
  | runtimeError
  | osError
  | memoryError
  | valueError
  deriving DecidableEq

/-- A Python exception as classified by the `except` clauses of
`IndexingPipelineService.index` (in clause order): `RETRYABLE_LLM_ERRORS`,
`PERMANENT_LLM_ERRORS`, `RecursionError`, `EMBEDDING_ERRORS`, and the
final bare `Exception` (carrying its `str(...)` rendering). -/
inductive PyExc
  | retryable (k : RetryableKind)
  | permanent (k : PermanentKind)
  | recursionError
  | embeddingExc (k : EmbeddingKind)
  | attributeError (msg : String)
  | otherExc (msg : String)
  deriving DecidableEq

/-- The user-facing message constants of `PipelineMessages`. -/
def PipelineMessages.RATE_LIMIT : String :=
  "LLM rate limit exceeded. Will retry on next sync."

def PipelineMessages.LLM_TIMEOUT : String :=
  "LLM request timed out. Will retry on next sync."

def PipelineMessages.LLM_UNAVAILABLE : String :=
  "LLM service temporarily unavailable. Will retry on next sync."

def PipelineMessages.LLM_BAD_GATEWAY : String :=
  "LLM gateway error. Will retry on next sync."

def PipelineMessages.LLM_SERVER_ERROR : String :=
  "LLM internal server error. Will retry on next sync."

def PipelineMessages.LLM_CONNECTION : String :=
  "Could not reach the LLM service. Check network connectivity."

def PipelineMessages.LLM_AUTH : String :=
  "LLM authentication failed. Check your API key."

def PipelineMessages.LLM_PERMISSION : String :=
  "LLM request denied. Check your account permissions."

def PipelineMessages.LLM_NOT_FOUND : String :=
  "LLM model not found. Check your model configuration."

def PipelineMessages.LLM_BAD_REQUEST : String :=
  "LLM rejected the request. Document content may be invalid."

def PipelineMessages.LLM_UNPROCESSABLE : String :=
  "Document exceeds the LLM context window even after optimization."

def PipelineMessages.LLM_RESPONSE : String :=
  "LLM returned an invalid response."

def PipelineMessages.EMBEDDING_FAILED : String :=
  "Embedding failed. Check your embedding model configuration or service."

def PipelineMessages.EMBEDDING_MODEL : String :=
  "Embedding model files are missing or corrupted."

def PipelineMessages.EMBEDDING_MEMORY : String :=
  "Not enough memory to embed this document."

def PipelineMessages.EMBEDDING_INPUT : String :=
  "Document content is invalid for the embedding model."

def PipelineMessages.CHUNKING_OVERFLOW : String :=
  "Document structure is too deeply nested to chunk."

/-- `safe_exception_message(exc)`: `str(exc)` (stringification never fails in
the model, so the fallback branch is unreachable). -/
def safe_exception_message : PyExc → String
  | .attributeError m => m
  | .otherExc m => m
  | .retryable _ => "retryable LLM error"
  | .permanent _ => "permanent LLM error"
  | .recursionError => "maximum recursion depth exceeded"
  | .embeddingExc _ => "embedding backend error"

/-- `llm_retryable_message(exc)`: the `isinstance` chain over the retryable
litellm classes. -/
def llm_retryable_message : RetryableKind → String
  | .rateLimit => PipelineMessages.RATE_LIMIT
  | .timeout => PipelineMessages.LLM_TIMEOUT
  | .serviceUnavailable => PipelineMessages.LLM_UNAVAILABLE
  | .badGateway => PipelineMessages.LLM_BAD_GATEWAY
  | .internalServerError => PipelineMessages.LLM_SERVER_ERROR
  | .apiConnection => PipelineMessages.LLM_CONNECTION

/-- `llm_permanent_message(exc)`: the `isinstance` chain over the permanent
litellm classes. -/
def llm_permanent_message : PermanentKind → String
  | .authentication => PipelineMessages.LLM_AUTH
  | .permissionDenied => PipelineMessages.LLM_PERMISSION
  | .notFound => PipelineMessages.LLM_NOT_FOUND
  | .badRequest => PipelineMessages.LLM_BAD_REQUEST
  | .unprocessableEntity => PipelineMessages.LLM_UNPROCESSABLE
  | .apiResponseValidation => PipelineMessages.LLM_RESPONSE

/-- `embedding_message(exc)`: the `isinstance` chain over the embedding
error classes. -/
def embedding_message : EmbeddingKind → String
  | .runtimeError => PipelineMessages.EMBEDDING_FAILED
  | .osError => PipelineMessages.EMBEDDING_MODEL
  | .memoryError => PipelineMessages.EMBEDDING_MEMORY
  | .valueError => PipelineMessages.EMBEDDING_INPUT

/-- The failure message persisted by the `except` clauses of `index`,
in clause order. -/
def failureMessage : PyExc → String
  | .retryable k => llm_retryable_message k
  | .permanent k => llm_permanent_message k
  | .recursionError => PipelineMessages.CHUNKING_OVERFLOW
  | .embeddingExc k => embedding_message k
  | .attributeError m => safe_exception_message (.attributeError m)
  | .otherExc m => safe_exception_message (.otherExc m)

/-! ## `IndexingPipelineService.index` -/

/-- The LLM collaborator behind `summarize_document(source_markdown, llm,
metadata)` (spec interface: `summarize(content, metadata) -> text`, may raise
classified LLM errors). -/
structure LLM where
  summarize : String → Metadata → Except PyExc String

/-- The `try:` body of `index` after the `processing` commit, in source
order: content selection, `embed_text(content)`, chunk deletion plus
re-chunking of the raw source, per-chunk embedding, and the final mutation
of the row.  `embed_text` / `chunk_text` delegate to configured collaborator
instances and are passed as function parameters. -/
def indexAttempt (committed1 : DocRow) (cd : ConnectorDocument) (llm : Option LLM)
    (embed : String → Except PyExc Embedding)
    (chunk : String → Bool → Except PyExc (List String)) (now : ℕ) :
    Except PyExc DocRow := do
  let content ← (match cd.should_summarize, llm with
    | true, some l => l.summarize cd.source_markdown cd.metadata
    | true, none =>
      -- `elif connector_doc.should_summarize and connector_doc.fallback_summary:`
      -- the pydantic model declares no `fallback_summary` field, so this
      -- attribute access raises AttributeError (caught by the bare
      -- `except Exception` clause below).
      Except.error (.attributeError
        "ConnectorDocument object has no attribute fallback_summary")
    | false, _ => Except.ok cd.source_markdown)
  let embedding ← embed content
  let texts ← chunk cd.source_markdown cd.should_use_code_chunker
  let chunkRows ← texts.mapM (fun t => do
    let e ← embed t
    pure (⟨t, e⟩ : ChunkRow))
  pure { committed1 with
    content := content
    embedding := some embedding
    chunks := chunkRows
    updated_at := now
    status := DocumentStatus.ready }

/-- `index(document, connector_doc, llm)`: transition to `processing`
(committed immediately), run the attempt, commit the `ready` row on success;
on any classified exception, `rollback_and_persist_failure` rolls back to the
post-`processing` commit, reloads the row, stamps it `failed` with the
classified message, and commits.  The returned row is the refreshed final
state. -/
def index (document : DocRow) (cd : ConnectorDocument) (llm : Option LLM)
    (embed : String → Except PyExc Embedding)
    (chunk : String → Bool → Except PyExc (List String)) (now : ℕ) : DocRow :=
  let committed1 := { document with status := DocumentStatus.processing }
  match indexAttempt committed1 cd llm embed chunk now with
  | .ok final => final
  | .error e =>
    { committed1 with updated_at := now, status := DocumentStatus.failed (failureMessage e) }

/-- Substring search on character lists (used to state "the reason mentions
retry"). -/
def hasInfix (pat : List Char) : List Char → Bool
  | [] => pat.isEmpty
  | c :: t => pat.isPrefixOf (c :: t) || hasInfix pat t

/-- `pat` occurs as a contiguous substring of `s`. -/
def strContainsSub (s pat : String) : Bool := hasInfix pat.data s.data

/-- An embedder that always succeeds (the claims below fail before
embedding is reached, or do not constrain the vector). -/
def stubEmbed : String → Except PyExc Embedding := fun _ => .ok [1]

/-- A chunker that returns the whole text as one chunk (the shape of the
`patched_chunk_text` test fixture). -/
def stubChunk : String → Bool → Except PyExc (List String) := fun t _ => .ok [t]

/-! ## Claims about `index` -/

/-- The connector document of the repository test
`test_fallback_summary_used_when_llm_unavailable`: `should_summarize=True`,
no LLM, constructed with `fallback_summary="Short pre-built summary."`. -/
def fallbackDoc : ConnectorDocument := buildConnectorDocument {
  title := "Test Document"
  source_markdown := "## Full raw content"
  unique_id := "test-id-001"
  document_type := .CLICKUP_CONNECTOR
  search_space_id := 1
  connector_id := 1
  created_by_id := "00000000-0000-0000-0000-000000000001"
  should_summarize := true } (some "Short pre-built summary.")

/-- C1 (counter-evaluation): with `should_summarize=True`, no LLM and a
supplied fallback summary, `index` does NOT persist the fallback verbatim:
the pydantic model silently drops the supplied `fallback_summary` (no such
field is declared), the attribute read raises `AttributeError`, and the
document ends `failed` with its content still the pending placeholder —
contradicting the spec and the tests
`test_fallback_summary_used_when_llm_unavailable` and
`test_no_llm_falls_back_to_source_markdown`. -/
theorem fallback_summary_is_not_used :
    ((prepare_for_indexing id 0 ⟨[], 0⟩ [fallbackDoc] .ok).2.map
      (fun d => ((index d fallbackDoc none stubEmbed stubChunk 1).status.state,
        (index d fallbackDoc none stubEmbed stubChunk 1).content))) =
      [(DocState.failed, "Pending...")] ∧
    ("Pending..." : String) ≠ "Short pre-built summary." := by
  constructor
  · decide
  · decide

/-- An LLM whose call raises `APIConnectionError` — a member of
`RETRYABLE_LLM_ERRORS`. -/
def connFailLLM : LLM := ⟨fun _ _ => .error (.retryable .apiConnection)⟩

/-- C3 (counterexample): for the retryable-classified `APIConnectionError`,
the persisted failure reason is `LLM_CONNECTION`, which does not mention
retry (in any letter case) — so "the reason mentions retry when the error is
retryable" fails for this classified retryable error. -/
theorem retryable_connection_reason_lacks_retry :
    (index (newDoc id 0 sampleDoc) sampleDoc (some connFailLLM) stubEmbed stubChunk 1).status =
      DocumentStatus.failed PipelineMessages.LLM_CONNECTION ∧
    strContainsSub PipelineMessages.LLM_CONNECTION "retry" = false ∧
    strContainsSub PipelineMessages.LLM_CONNECTION "Retry" = false := by
  refine ⟨by decide, by decide, by decide⟩

/-- C3 (amended): for every pending document (placeholder content, no
embedding, no chunks), if the LLM raises during `index` then afterwards the
embedding is still unset, the content is still the pending placeholder, no
chunks exist, and the status is `failed` with the classified human-readable
reason; the reason mentions retry for every retryable error except
connection failures, whose reason instead points at network connectivity. -/
theorem llm_error_leaves_no_partial_writes (doc : DocRow) (cd : ConnectorDocument)
    (l : LLM) (e : PyExc)
    (embed : String → Except PyExc Embedding)
    (chunk : String → Bool → Except PyExc (List String)) (now : ℕ)
    (hsum : cd.should_summarize = true)
    (hraise : l.summarize cd.source_markdown cd.metadata = .error e)
    (hcontent : doc.content = "Pending...")
    (hemb : doc.embedding = none)
    (hchunks : doc.chunks = []) :
    (index doc cd (some l) embed chunk now).embedding = none ∧
    (index doc cd (some l) embed chunk now).content = "Pending..." ∧
    (index doc cd (some l) embed chunk now).chunks = [] ∧
    (index doc cd (some l) embed chunk now).status =
      DocumentStatus.failed (failureMessage e) ∧
    (∀ k, e = PyExc.retryable k → k ≠ RetryableKind.apiConnection →
      strContainsSub (failureMessage e) "retry" = true) ∧
    (e = PyExc.retryable RetryableKind.apiConnection →
      strContainsSub (failureMessage e) "network connectivity" = true) := by
  have hfail : index doc cd (some l) embed chunk now =
      { doc with status := DocumentStatus.failed (failureMessage e), updated_at := now } := by
    simp only [index, indexAttempt, hsum, hraise]
    rfl
  rw [hfail]
  refine ⟨hemb, hcontent, hchunks, rfl, ?_, ?_⟩
  · rintro k rfl hk
    cases k with
    | rateLimit => decide
    | timeout => decide
    | serviceUnavailable => decide
    | badGateway => decide
    | internalServerError => decide
    | apiConnection => exact absurd rfl hk
  · rintro rfl
    decide

/-- An LLM raising the rate-limit error of the spec's scenario. -/
def rateLimitLLM : LLM := ⟨fun _ _ => .error (.retryable .rateLimit)⟩

theorem llm_error_leaves_no_partial_writes_witness :
    (index (newDoc id 0 sampleDoc) sampleDoc (some rateLimitLLM) stubEmbed stubChunk 1).embedding
        = none ∧
    (index (newDoc id 0 sampleDoc) sampleDoc (some rateLimitLLM) stubEmbed stubChunk 1).content
        = "Pending..." ∧
    (index (newDoc id 0 sampleDoc) sampleDoc (some rateLimitLLM) stubEmbed stubChunk 1).chunks
        = [] ∧
    (index (newDoc id 0 sampleDoc) sampleDoc (some rateLimitLLM) stubEmbed stubChunk 1).status
        = DocumentStatus.failed (failureMessage (.retryable .rateLimit)) ∧
    (∀ k, PyExc.retryable RetryableKind.rateLimit = PyExc.retryable k →
      k ≠ RetryableKind.apiConnection →
      strContainsSub (failureMessage (.retryable .rateLimit)) "retry" = true) ∧
    (PyExc.retryable RetryableKind.rateLimit = PyExc.retryable RetryableKind.apiConnection →
      strContainsSub (failureMessage (.retryable .rateLimit)) "network connectivity" = true) := by
  have base := llm_error_leaves_no_partial_writes (newDoc id 0 sampleDoc) sampleDoc
    rateLimitLLM (.retryable .rateLimit) stubEmbed stubChunk 1
    (by decide) rfl rfl rfl rfl
  refine ⟨base.1, base.2.1, base.2.2.1, base.2.2.2.1, ?_, base.2.2.2.2.2⟩
  intro k hk hne
  exact base.2.2.2.2.1 k hk hne

/-! ## Python string helpers for `knowledge_base.py` -/

/-- Python `str.strip()` whitespace (ASCII model). -/
def isPySpace (c : Char) : Bool :=
  c == ' ' || c == '\t' || c == '\n' || c == '\r' || c == '\x0b' || c == '\x0c'

/-- `str.strip()` on character lists. -/
def pyStripList (l : List Char) : List Char :=
  ((l.dropWhile isPySpace).reverse.dropWhile isPySpace).reverse

/-- Python `s.strip()`. -/
def pyStrip (s : String) : String := ⟨pyStripList s.data⟩

/-- Python slicing `s[:n]`, including negative `n` (drop `-n` characters from
the end, clamped). -/
def pySliceTo (s : String) (n : ℤ) : String :=
  ⟨s.data.take (if n < 0 then ((s.data.length : ℤ) + n).toNat else n.toNat)⟩

/-- Python `"sep".join(parts)`. -/
def pyJoin (sep : String) : List String → String
  | [] => ""
  | [s] => s
  | s :: t :: rest => s ++ sep ++ pyJoin sep (t :: rest)

/-! ## Degenerate-query detection (`_is_degenerate_query`) -/

/-- Membership in the character class of `_DEGENERATE_QUERY_RE` (anchored,
one or more of): whitespace, the wildcards star and question mark, and the
punctuation underscore, dot, hash, at, bang, dash, slash, backslash. -/
def isDegenerateChar (c : Char) : Bool :=
  isPySpace c || c == '*' || c == '?' || c == '_' || c == '.' || c == '#' ||
    c == '@' || c == '!' || c == '-' || c == '/' || c == '\\'

/-- `_is_degenerate_query(query)`: strip, accept the empty string, otherwise
accept exactly when the whole stripped query matches the degenerate class. -/
def _is_degenerate_query (query : String) : Bool :=
  let stripped := pyStrip query
  if stripped.data.isEmpty then true
  else stripped.data.all isDegenerateChar

/-- C9: the degenerate-query detector accepts `"*"`, `"**"`, `""`, `"   "`
and `"_"`, and rejects `"invoice Q3"`. -/
theorem degenerate_query_detection :
    _is_degenerate_query "*" = true ∧
    _is_degenerate_query "**" = true ∧
    _is_degenerate_query "" = true ∧
    _is_degenerate_query "   " = true ∧
    _is_degenerate_query "_" = true ∧
    _is_degenerate_query "invoice Q3" = false := by
  decide

/-! ## Context budget formatter constants and rank-adaptive allocation -/

def TOOL_OUTPUT_CONTEXT_FRACTION : ℚ := 0.25

def CHARS_PER_TOKEN : ℕ := 4

def MIN_TOOL_OUTPUT_CHARS : ℕ := 20000

def MAX_TOOL_OUTPUT_CHARS : ℕ := 200000

def MAX_CHUNK_CHARS : ℕ := 8000

def TOP_DOC_BUDGET_FRACTION : ℚ := 0.40

def RANK_DECAY : ℚ := 0.35

def MIN_CHUNKS_PER_DOC : ℕ := 3

/-- Python `int(q)`: truncation toward zero. -/
def pyInt (q : ℚ) : ℤ := if 0 ≤ q then ⌊q⌋ else -⌊-q⌋

/-- `doc_fraction = _TOP_DOC_BUDGET_FRACTION / (1 + doc_idx * _RANK_DECAY)`. -/
def docFraction (rank : ℕ) : ℚ :=
  TOP_DOC_BUDGET_FRACTION / (1 + (rank : ℚ) * RANK_DECAY)

/-- `max_doc_chars = int(max_chars * doc_fraction)`. -/
def maxDocChars (maxChars : ℕ) (rank : ℕ) : ℤ :=
  pyInt ((maxChars : ℚ) * docFraction rank)

/-- The auto-computed per-document chunk cap:
`max((max_doc_chars - xml_overhead) // max(max_chunk_chars, 1),
_MIN_CHUNKS_PER_DOC)` with `xml_overhead = 500` (Python `//` is floor
division). -/
def autoChunksAllowed (maxChars maxChunkChars : ℕ) (rank : ℕ) : ℤ :=
  max ((maxDocChars maxChars rank - 500).fdiv (max (maxChunkChars : ℤ) 1))
    (MIN_CHUNKS_PER_DOC : ℤ)

theorem docFraction_nonneg (rank : ℕ) : 0 ≤ docFraction rank := by
  unfold docFraction TOP_DOC_BUDGET_FRACTION RANK_DECAY
  positivity

theorem docFraction_antitone {r1 r2 : ℕ} (hr : r1 ≤ r2) :
    docFraction r2 ≤ docFraction r1 := by
  unfold docFraction TOP_DOC_BUDGET_FRACTION RANK_DECAY
  have hb : (0 : ℚ) < 1 + (r1 : ℚ) * 0.35 := by positivity
  have hc : (1 : ℚ) + (r1 : ℚ) * 0.35 ≤ 1 + (r2 : ℚ) * 0.35 := by
    have hcast : (r1 : ℚ) ≤ (r2 : ℚ) := by exact_mod_cast hr
    nlinarith
  exact div_le_div_of_nonneg_left (by norm_num) hb hc

theorem maxDocChars_antitone (maxChars : ℕ) {r1 r2 : ℕ} (hr : r1 ≤ r2) :
    maxDocChars maxChars r2 ≤ maxDocChars maxChars r1 := by
  unfold maxDocChars pyInt
  have h2 : (0 : ℚ) ≤ (maxChars : ℚ) * docFraction r2 :=
    mul_nonneg (by positivity) (docFraction_nonneg r2)
  have h1 : (0 : ℚ) ≤ (maxChars : ℚ) * docFraction r1 :=
    mul_nonneg (by positivity) (docFraction_nonneg r1)
  rw [if_pos h2, if_pos h1]
  exact Int.floor_le_floor
    (mul_le_mul_of_nonneg_left (docFraction_antitone hr) (by positivity))

/-- C8: for a fixed character budget and chunk-character cap, the
auto-computed allowed chunk count is non-increasing in the document's rank,
and every allowance is at least the configured floor
`_MIN_CHUNKS_PER_DOC`. -/
theorem rank_allowance_monotone (maxChars maxChunkChars : ℕ) (r1 r2 : ℕ) (hr : r1 ≤ r2) :
    autoChunksAllowed maxChars maxChunkChars r2 ≤ autoChunksAllowed maxChars maxChunkChars r1 ∧
    (MIN_CHUNKS_PER_DOC : ℤ) ≤ autoChunksAllowed maxChars maxChunkChars r2 := by
  constructor
  · unfold autoChunksAllowed
    have hc : (0 : ℤ) < max (maxChunkChars : ℤ) 1 :=
      lt_of_lt_of_le Int.zero_lt_one (le_max_right _ _)
    have hnum : maxDocChars maxChars r2 - 500 ≤ maxDocChars maxChars r1 - 500 :=
      sub_le_sub_right (maxDocChars_antitone maxChars hr) 500
    have hdiv : (maxDocChars maxChars r2 - 500).fdiv (max (maxChunkChars : ℤ) 1) ≤
        (maxDocChars maxChars r1 - 500).fdiv (max (maxChunkChars : ℤ) 1) := by
      rw [Int.fdiv_eq_ediv _ (le_of_lt hc), Int.fdiv_eq_ediv _ (le_of_lt hc)]
      exact Int.ediv_le_ediv hc hnum
    exact max_le_max hdiv (le_refl _)
  · exact le_max_right _ _

theorem rank_allowance_monotone_witness :
    autoChunksAllowed 200000 8000 5 ≤ autoChunksAllowed 200000 8000 0 ∧
    (MIN_CHUNKS_PER_DOC : ℤ) ≤ autoChunksAllowed 200000 8000 5 :=
  rank_allowance_monotone 200000 8000 0 5 (by decide)

/-! ## `format_documents_for_context`: inputs and serialization -/

/-- Python `str(int)`, including negatives. -/
def intStr (n : ℤ) : String :=
  if n < 0 then "-" ++ natRepr n.natAbs else natRepr n.toNat

/-- JSON escaping of one character (`json.dumps` with `ensure_ascii=False`:
quote, backslash and the common control characters). -/
def jsonEscapeChar (c : Char) : List Char :=
  if c = '"' then ['\\', '"']
  else if c = '\\' then ['\\', '\\']
  else if c = '\n' then ['\\', 'n']
  else if c = '\t' then ['\\', 't']
  else if c = '\r' then ['\\', 'r']
  else [c]

/-- A JSON string literal. -/
def jsonString (s : String) : String :=
  "\"" ++ ⟨(s.data.map jsonEscapeChar).flatten⟩ ++ "\""

/-- `json.dumps(metadata, ensure_ascii=False)` for the flat string-keyed
maps of the model. -/
def jsonDumps (m : Metadata) : String :=
  "\x7b" ++ pyJoin ", " (m.map (fun kv => jsonString kv.1 ++ ": " ++ jsonString kv.2)) ++ "\x7d"

/-- A chunk dict inside a document-grouped search result
(`{"chunk_id": ..., "id": ..., "content": ...}`, every key optional). -/
structure ChunkDict where
  chunk_id : Option ℤ := none
  id : Option ℤ := none
  content : Option String := none
  deriving DecidableEq

/-- The nested `"document"` dict of a search result. -/
structure DocumentInfo where
  id : Option ℤ := none
  title : Option String := none
  document_type : Option String := none
  metadata : Option Metadata := none
  deriving DecidableEq

/-- One document-grouped search result as consumed by
`format_documents_for_context` (the shape produced by `ConnectorService`,
with the flat chunk-like fallback keys). -/
structure SearchResult where
  document : Option DocumentInfo := none
  metadata : Option Metadata := none
  source : Option String := none
  chunks : Option (List ChunkDict) := none
  chunk_id : Option ℤ := none
  id : Option ℤ := none
  content : Option String := none
  deriving DecidableEq

/-- First truthy value of a chain of `x or y or ...` over optional strings
(Python: `None` and `""` are falsy), with a final default. -/
def firstTruthyStr : List (Option String) → String → String
  | [], d => d
  | some s :: rest, d => if s ≠ "" then s else firstTruthyStr rest d
  | none :: rest, d => firstTruthyStr rest d

/-- Python `a or b` over optional ints (`None` and `0` are falsy). -/
def pyOrInt (a b : Option ℤ) : Option ℤ :=
  match a with
  | some n => if n ≠ 0 then some n else b
  | none => b

/-- `metadata.get(key)`. -/
def mget (m : Metadata) (k : String) : Option String :=
  (m.find? (fun kv => kv.1 == k)).map (fun kv => kv.2)

/-- `doc.get("document") or {}`. -/
def docInfoOf (doc : SearchResult) : DocumentInfo := doc.document.getD {}

/-- `metadata = document_info.get("metadata") or {}`, falling back to the
top-level `doc.get("metadata") or {}` when empty. -/
def metadataOf (doc : SearchResult) : Metadata :=
  let m1 := (docInfoOf doc).metadata.getD []
  if m1 = [] then doc.metadata.getD [] else m1

/-- `source = doc.get("source") or document_info.get("document_type") or
metadata.get("document_type") or "UNKNOWN"`. -/
def sourceOf (doc : SearchResult) : String :=
  firstTruthyStr [doc.source, (docInfoOf doc).document_type,
    mget (metadataOf doc) "document_type"] "UNKNOWN"

/-- `title = document_info.get("title") or metadata.get("title") or
"Untitled Document"`. -/
def titleOf (doc : SearchResult) : String :=
  firstTruthyStr [(docInfoOf doc).title, mget (metadataOf doc) "title"] "Untitled Document"

/-- `url = metadata.get("url") or metadata.get("source") or
metadata.get("page_url") or ""`. -/
def urlOf (doc : SearchResult) : String :=
  firstTruthyStr [mget (metadataOf doc) "url", mget (metadataOf doc) "source",
    mget (metadataOf doc) "page_url"] ""

/-- `doc_key = str(document_id) if it is not None else
f"{source}::{title}::{url}"`. -/
def docKeyOf (doc : SearchResult) : String :=
  match (docInfoOf doc).id with
  | some v => intStr v
  | none => sourceOf doc ++ "::" ++ titleOf doc ++ "::" ++ urlOf doc

/-- A chunk as stored in a group: preserved `chunk_id` plus stripped
non-empty content. -/
structure GChunk where
  chunk_id : Option ℤ
  content : String
  deriving DecidableEq

/-- A grouped document as accumulated in `grouped` (the `document_id` field
holds its rendered form: `str(id)` or the fallback key). -/
structure DocGroup where
  key : String
  document_id : String
  document_type : String
  title : String
  url : String
  metadata : Metadata
  chunks : List GChunk
  deriving DecidableEq

/-- One entry of a result's `"chunks"` list: keep
`ch.get("chunk_id") or ch.get("id")` and the stripped content, skipping
empty content. -/
def chunkEntryOf (ch : ChunkDict) : Option GChunk :=
  let cid := pyOrInt ch.chunk_id ch.id
  let content := pyStrip (ch.content.getD "")
  if content = "" then none else some ⟨cid, content⟩

/-- The chunks a result contributes: its non-empty `"chunks"` list if
present, otherwise the flat chunk-like fallback
(`doc.get("chunk_id") or doc.get("id")`, `doc.get("content")`). -/
def chunksOf (doc : SearchResult) : List GChunk :=
  match doc.chunks with
  | some (c :: cs) => (c :: cs).filterMap chunkEntryOf
  | _ =>
    let cid := pyOrInt doc.chunk_id doc.id
    let content := pyStrip (doc.content.getD "")
    if content = "" then [] else [⟨cid, content⟩]

/-- One iteration of the grouping loop: insert a new group (insertion order
preserved) or append this result's chunks to its existing group. -/
def addToGroups (gs : List DocGroup) (doc : SearchResult) : List DocGroup :=
  let key := docKeyOf doc
  let newChunks := chunksOf doc
  if gs.any (fun g => g.key == key) then
    gs.map (fun g => if g.key == key then { g with chunks := g.chunks ++ newChunks } else g)
  else
    gs ++ [{
      key := key
      document_id := match (docInfoOf doc).id with | some v => intStr v | none => key
      document_type := firstTruthyStr [mget (metadataOf doc) "document_type"] (sourceOf doc)
      title := titleOf doc
      url := urlOf doc
      metadata := metadataOf doc
      chunks := newChunks }]

/-- The live-search connectors cited by URL instead of chunk id. -/
def liveSearchConnectors : List String :=
  ["TAVILY_API", "SEARXNG_API", "LINKUP_API", "BAIDU_SEARCH_API"]

/-- Rendering of one chunk line, with tail truncation at the per-chunk cap
(`if max_chunk_chars and len(ch_content) > max_chunk_chars`) and the
URL-or-chunk-id citation identifier. -/
def renderChunkLine (isLive : Bool) (url : String) (maxChunkChars : ℕ) (ch : GChunk) : String :=
  let content := if maxChunkChars ≠ 0 ∧ ch.content.length > maxChunkChars
    then pySliceTo ch.content (maxChunkChars : ℤ) ++ "\n...(truncated)"
    else ch.content
  match (if isLive && url ≠ "" then some url else ch.chunk_id.map intStr) with
  | none => "  <chunk><![CDATA[" ++ content ++ "]]></chunk>"
  | some cid => "  <chunk id=\x27" ++ cid ++ "\x27><![CDATA[" ++ content ++ "]]></chunk>"

/-- The rendered XML block of one grouped document (`doc_xml`), including the
rank-adaptive chunk cap. -/
def renderGroup (maxChars maxChunkChars maxChunksPerDoc : ℕ) (docIdx : ℕ) (g : DocGroup) : String :=
  let metadataJson := jsonDumps g.metadata
  let isLive := liveSearchConnectors.contains g.document_type
  let baseLines : List String := [
    "<document>",
    "<document_metadata>",
    "  <document_id>" ++ g.document_id ++ "</document_id>",
    "  <document_type>" ++ g.document_type ++ "</document_type>",
    "  <title><![CDATA[" ++ g.title ++ "]]></title>",
    "  <url><![CDATA[" ++ g.url ++ "]]></url>",
    "  <metadata_json><![CDATA[" ++ metadataJson ++ "]]></metadata_json>",
    "</document_metadata>",
    "",
    "<document_content>"]
  let allowed : ℤ := if maxChunksPerDoc > 0 then (maxChunksPerDoc : ℤ)
    else autoChunksAllowed maxChars maxChunkChars docIdx
  let chunks := if (g.chunks.length : ℤ) > allowed then g.chunks.take allowed.toNat else g.chunks
  let chunkLines := chunks.map (renderChunkLine isLive g.url maxChunkChars)
  pyJoin "\n" (baseLines ++ chunkLines ++ ["</document_content>", "</document>", ""])

/-- The single truncation comment appended when the budget cuts the
document list. -/
def truncationComment (remaining maxChars : ℕ) : String :=
  "<!-- Output truncated: " ++ natRepr remaining ++ " more document(s) omitted (budget " ++
    natRepr maxChars ++ " chars). Refine your query or reduce top_k to retrieve different results. -->"

/-- The budget-respecting accumulation loop over the enumerated groups:
append blocks while they fit; at the first overflow always keep at least the
first block, append one truncation comment, and stop. -/
def renderLoop (maxChars maxChunkChars maxChunksPerDoc totalDocs : ℕ) :
    List (ℕ × DocGroup) → List String → ℕ → List String
  | [], parts, _ => parts
  | (idx, g) :: rest, parts, total =>
    let blockXml := renderGroup maxChars maxChunkChars maxChunksPerDoc idx g
    let blockLen := blockXml.length
    if total + blockLen > maxChars then
      (if idx == 0 then parts ++ [blockXml] else parts) ++
        [truncationComment (totalDocs - idx) maxChars]
    else
      renderLoop maxChars maxChunkChars maxChunksPerDoc totalDocs rest
        (parts ++ [blockXml]) (total + blockLen)

/-- The forced-truncation marker of the final hard safety net. -/
def forcedTruncationMsg : String :=
  "\n<!-- ...output forcibly truncated to fit context window -->"

/-- `format_documents_for_context(documents, max_chars, max_chunk_chars,
max_chunks_per_doc)`: group, render under the budget, strip, and as a final
safety net hard-truncate (`result[:max_chars - len(truncation_msg)] +
truncation_msg`) when still over budget. -/
def format_documents_for_context (documents : List SearchResult)
    (maxChars : ℕ) (maxChunkChars : ℕ) (maxChunksPerDoc : ℕ) : String :=
  if documents.isEmpty then ""
  else
    let grouped := documents.foldl addToGroups []
    let parts := renderLoop maxChars maxChunkChars maxChunksPerDoc grouped.length
      grouped.enum [] 0
    let result := pyStrip (pyJoin "\n" parts)
    if result.length > maxChars then
      pySliceTo result ((maxChars : ℤ) - (forcedTruncationMsg.length : ℤ)) ++ forcedTruncationMsg
    else result

/-- The rendered block of the first grouped document (`doc_idx = 0`). -/
def firstDocumentBlock (documents : List SearchResult)
    (maxChars maxChunkChars maxChunksPerDoc : ℕ) : String :=
  match documents.foldl addToGroups [] with
  | [] => ""
  | g :: _ => renderGroup maxChars maxChunkChars maxChunksPerDoc 0 g

/-! ## C10: the hard safety net bounds the output length -/

theorem strLength_append (a b : String) : (a ++ b).length = a.length + b.length := by
  show (a ++ b).data.length = a.data.length + b.data.length
  rw [str_data_append, List.length_append]

theorem pySliceTo_length_le (s : String) (n : ℤ) (hn : 0 ≤ n) :
    (pySliceTo s n).length ≤ n.toNat := by
  simp only [pySliceTo, if_neg (not_lt.mpr hn), String.length]
  exact le_trans (le_of_eq (List.length_take _ _)) (min_le_left _ _)

/-- C10: for every input list and every character budget at least as long as
the forced-truncation marker, the formatter's output has length at most the
budget — the hard safety net bounds the output even when the first
document's block alone exceeds the budget. -/
theorem format_output_length_bounded (documents : List SearchResult)
    (maxChars maxChunkChars maxChunksPerDoc : ℕ)
    (h : forcedTruncationMsg.length ≤ maxChars) :
    (format_documents_for_context documents maxChars maxChunkChars maxChunksPerDoc).length ≤
      maxChars := by
  have aux : ∀ result : String,
      (if result.length > maxChars then
        pySliceTo result ((maxChars : ℤ) - (forcedTruncationMsg.length : ℤ)) ++
          forcedTruncationMsg
      else result).length ≤ maxChars := by
    intro result
    by_cases hlen : result.length > maxChars
    · rw [if_pos hlen, strLength_append]
      have hn : (0 : ℤ) ≤ (maxChars : ℤ) - (forcedTruncationMsg.length : ℤ) := by
        omega
      have hslice := pySliceTo_length_le result _ hn
      have htn : ((maxChars : ℤ) - (forcedTruncationMsg.length : ℤ)).toNat =
          maxChars - forcedTruncationMsg.length := by
        omega
      omega
    · rw [if_neg hlen]
      omega
  unfold format_documents_for_context
  by_cases hd : documents.isEmpty = true
  · rw [if_pos hd]
    exact Nat.zero_le maxChars
  · rw [if_neg hd]
    exact aux _

theorem format_output_length_bounded_witness :
    forcedTruncationMsg.length ≤ 120 ∧
      (format_documents_for_context [({} : SearchResult)] 120 8000 0).length ≤ 120 :=
  ⟨by decide, format_output_length_bounded [({} : SearchResult)] 120 8000 0 (by decide)⟩

/-! ## C7: the first document's block and the single truncation comment -/

/-- Counting occurrences of a pattern (used to state "exactly one truncation
comment"). -/
def countInfix (pat : List Char) : List Char → ℕ
  | [] => 0
  | c :: t => (if pat.isPrefixOf (c :: t) then 1 else 0) + countInfix pat t

/-- How many times `pat` occurs as a contiguous substring of `s`. -/
def strCountSub (s pat : String) : ℕ := countInfix pat.data s.data

/-- Trailing-whitespace strip (`str.strip()` restricted to the right end). -/
def stripEndList (l : List Char) : List Char := (l.reverse.dropWhile isPySpace).reverse

theorem pyStripList_eq_stripEnd (l : List Char) :
    pyStripList l = stripEndList (l.dropWhile isPySpace) := rfl

theorem dropWhile_isSuffixOf (p : Char → Bool) (l : List Char) : l.dropWhile p <:+ l := by
  induction l with
  | nil => simp
  | cons c t ih =>
    by_cases hc : p c = true
    · rw [List.dropWhile_cons_of_pos hc]
      exact ih.trans (List.suffix_cons c t)
    · rw [List.dropWhile_cons_of_neg hc]

theorem stripEnd_isPrefixOf (l : List Char) : stripEndList l <+: l := by
  unfold stripEndList
  have h := dropWhile_isSuffixOf isPySpace l.reverse
  have h2 := List.reverse_prefix.mpr h
  simpa using h2

theorem stripEnd_append (a b : List Char) :
    stripEndList (a ++ b) =
      if stripEndList b = [] then stripEndList a else a ++ stripEndList b := by
  unfold stripEndList
  rw [List.reverse_append, List.dropWhile_append]
  by_cases hb : (b.reverse.dropWhile isPySpace).isEmpty = true
  · have hb2 : (b.reverse.dropWhile isPySpace).reverse = [] := by
      rw [List.reverse_eq_nil_iff]
      exact List.isEmpty_iff.mp hb
    rw [if_pos hb, if_pos hb2]
  · have hb2 : ¬((b.reverse.dropWhile isPySpace).reverse = []) := by
      rw [List.reverse_eq_nil_iff]
      intro hc
      exact hb (List.isEmpty_iff.mpr hc)
    rw [if_neg hb, if_neg hb2, List.reverse_append, List.reverse_reverse]

theorem stripEnd_ne_nil_of_mem {c : Char} {l : List Char} (hc : c ∈ l)
    (hcs : isPySpace c = false) : stripEndList l ≠ [] := by
  intro h
  unfold stripEndList at h
  rw [List.reverse_eq_nil_iff] at h
  have hall := List.dropWhile_eq_nil_iff.mp h c (by simpa using hc)
  rw [hcs] at hall
  exact Bool.false_ne_true hall

theorem pyJoin_cons (sep s : String) (rest : List String) :
    ∃ t, pyJoin sep (s :: rest) = s ++ t := by
  cases rest with
  | nil => exact ⟨"", (String.append_empty s).symm⟩
  | cons r rs =>
    refine ⟨sep ++ pyJoin sep (r :: rs), ?_⟩
    show s ++ sep ++ pyJoin sep (r :: rs) = s ++ (sep ++ pyJoin sep (r :: rs))
    rw [String.append_assoc]

theorem renderGroup_data_head (mc mcc mcpd idx : ℕ) (g : DocGroup) :
    ∃ bs, (renderGroup mc mcc mcpd idx g).data = '<' :: bs := by
  obtain ⟨x, hx⟩ : ∃ x, renderGroup mc mcc mcpd idx g = pyJoin "\n" ("<document>" :: x) :=
    ⟨_, rfl⟩
  obtain ⟨t, ht⟩ := pyJoin_cons "\n" "<document>" x
  refine ⟨("document>" : String).data ++ t.data, ?_⟩
  rw [hx, ht, str_data_append]
  rfl

theorem addToGroups_nil_ne (d : SearchResult) : addToGroups [] d ≠ [] := by
  simp [addToGroups]

theorem addToGroups_ne_nil (gs : List DocGroup) (d : SearchResult) (h : gs ≠ []) :
    addToGroups gs d ≠ [] := by
  simp only [addToGroups]
  by_cases hany : (gs.any fun g => g.key == docKeyOf d) = true
  · rw [if_pos hany]
    intro hc
    exact h (List.map_eq_nil_iff.mp hc)
  · rw [if_neg hany]
    simp

theorem foldl_addToGroups_ne_nil (ds : List SearchResult) :
    ∀ gs : List DocGroup, gs ≠ [] → ds.foldl addToGroups gs ≠ [] := by
  induction ds with
  | nil => intro gs h; simpa using h
  | cons d ds ih =>
    intro gs h
    rw [List.foldl_cons]
    exact ih _ (addToGroups_ne_nil gs d h)

theorem groups_ne_nil {docs : List SearchResult} (h : docs ≠ []) :
    docs.foldl addToGroups [] ≠ [] := by
  cases docs with
  | nil => exact absurd rfl h
  | cons d ds =>
    rw [List.foldl_cons]
    exact foldl_addToGroups_ne_nil ds _ (addToGroups_nil_ne d)

theorem renderLoop_append (mc mcc mcpd td : ℕ) :
    ∀ (l : List (ℕ × DocGroup)) (parts : List String) (total : ℕ),
      ∃ extra, renderLoop mc mcc mcpd td l parts total = parts ++ extra := by
  intro l
  induction l with
  | nil =>
    intro parts total
    exact ⟨[], by simp [renderLoop]⟩
  | cons p rest ih =>
    intro parts total
    obtain ⟨idx, g⟩ := p
    by_cases hov : total + (renderGroup mc mcc mcpd idx g).length > mc
    · refine ⟨(if idx == 0 then [renderGroup mc mcc mcpd idx g] else []) ++
        [truncationComment (td - idx) mc], ?_⟩
      simp only [renderLoop]
      rw [if_pos hov]
      by_cases hidx : (idx == 0) = true
      · rw [if_pos hidx, if_pos hidx, List.append_assoc]
      · rw [if_neg hidx, if_neg hidx]
        simp
    · obtain ⟨extra, he⟩ := ih (parts ++ [renderGroup mc mcc mcpd idx g])
        (total + (renderGroup mc mcc mcpd idx g).length)
      refine ⟨[renderGroup mc mcc mcpd idx g] ++ extra, ?_⟩
      simp only [renderLoop]
      rw [if_neg hov, he, List.append_assoc]

theorem renderLoop_first (mc mcc mcpd td : ℕ) (g : DocGroup) (l : List (ℕ × DocGroup)) :
    ∃ rest, renderLoop mc mcc mcpd td ((0, g) :: l) [] 0 =
      renderGroup mc mcc mcpd 0 g :: rest := by
  by_cases hov : 0 + (renderGroup mc mcc mcpd 0 g).length > mc
  · refine ⟨[truncationComment (td - 0) mc], ?_⟩
    simp only [renderLoop]
    rw [if_pos hov]
    simp
  · obtain ⟨extra, he⟩ := renderLoop_append mc mcc mcpd td l
      ([] ++ [renderGroup mc mcc mcpd 0 g]) (0 + (renderGroup mc mcc mcpd 0 g).length)
    refine ⟨extra, ?_⟩
    simp only [renderLoop]
    rw [if_neg hov, he]
    simp

/-- The strip-then-hard-truncate tail of `format_documents_for_context`. -/
def formatTail (result : String) (mc : ℕ) : String :=
  if result.length > mc then
    pySliceTo result ((mc : ℤ) - (forcedTruncationMsg.length : ℤ)) ++ forcedTruncationMsg
  else result

theorem formatTail_facts (B : String) (rest : List String) (mc : ℕ)
    {bs : List Char} (hB : B.data = '<' :: bs) :
    formatTail (pyStrip (pyJoin "\n" (B :: rest))) mc ≠ "" ∧
    (stripEndList B.data <+: (formatTail (pyStrip (pyJoin "\n" (B :: rest))) mc).data ∨
      forcedTruncationMsg.data <:+ (formatTail (pyStrip (pyJoin "\n" (B :: rest))) mc).data) := by
  obtain ⟨t, ht⟩ := pyJoin_cons "\n" B rest
  rw [ht]
  have hdata : (pyStrip (B ++ t)).data = stripEndList (B.data ++ t.data) := by
    show pyStripList ((B ++ t).data) = _
    rw [str_data_append, pyStripList_eq_stripEnd, hB, List.cons_append,
      List.dropWhile_cons_of_neg (by decide), ← List.cons_append, ← hB]
  have hpre : stripEndList B.data <+: (pyStrip (B ++ t)).data := by
    rw [hdata, stripEnd_append]
    by_cases hcase : stripEndList t.data = []
    · rw [if_pos hcase]
    · rw [if_neg hcase]
      exact (stripEnd_isPrefixOf B.data).trans (List.prefix_append _ _)
  have hne0 : stripEndList B.data ≠ [] :=
    stripEnd_ne_nil_of_mem (by rw [hB]; exact List.mem_cons_self '<' bs) (by decide)
  unfold formatTail
  by_cases hlen : (pyStrip (B ++ t)).length > mc
  · rw [if_pos hlen]
    constructor
    · intro hc
      have hd := congrArg String.data hc
      rw [str_data_append] at hd
      have hmsg : forcedTruncationMsg.data = [] := (List.append_eq_nil.mp hd).2
      exact absurd hmsg (by decide)
    · right
      rw [str_data_append]
      exact List.suffix_append _ _
  · rw [if_neg hlen]
    constructor
    · intro hc
      have hd : (pyStrip (B ++ t)).data = [] := by
        rw [hc]
      exact hne0 (List.prefix_nil.mp (hd ▸ hpre))
    · left
      exact hpre

/-- An `n`-character chunk body used to size the scenario's blocks. -/
def chunkContent (n : ℕ) : String := ⟨List.replicate n 'A'⟩

/-- One of the three grouped documents of the spec's truncation scenario. -/
def scenarioResult (i : ℤ) (len : ℕ) : SearchResult := {
  document := some ⟨some i, some ("Doc " ++ intStr i), some "FILE", some []⟩
  source := some "FILE"
  chunks := some [⟨some (100 + i), none, some (chunkContent len)⟩] }

/-- Three grouped documents whose rendered blocks are ≈421 characters each:
under a 600-character budget only document 0's block fits. -/
def scenarioDocs : List SearchResult :=
  [scenarioResult 1 100, scenarioResult 2 100, scenarioResult 3 100]

set_option maxRecDepth 100000 in
/-- C7 (counterexample): with a budget below the first document's block
size (but above the forced-truncation marker), the hard safety net truncates
and the output does NOT contain the first document's full block — though it
is still non-empty. -/
theorem first_block_not_included_when_oversized :
    strContainsSub (format_documents_for_context [({} : SearchResult)] 120 8000 5)
      (firstDocumentBlock [({} : SearchResult)] 120 8000 5) = false ∧
    format_documents_for_context [({} : SearchResult)] 120 8000 5 ≠ "" := by
  refine ⟨by decide, by decide⟩

set_option maxRecDepth 400000 in
/-- C7 (amended): formatting the three scenario documents under a budget
that fits only document 0's block yields document 0's full block plus
exactly one truncation comment mentioning "2 more document(s)"; in general,
for every non-empty input the output is never fully empty, and it either
starts with the first document's block (trailing whitespace stripped) or
ends with the forced-truncation marker of the hard safety net. -/
theorem formatter_first_block_and_truncation :
    (strContainsSub (format_documents_for_context scenarioDocs 600 8000 5)
        (firstDocumentBlock scenarioDocs 600 8000 5) = true ∧
      strCountSub (format_documents_for_context scenarioDocs 600 8000 5)
        "more document(s) omitted" = 1 ∧
      strContainsSub (format_documents_for_context scenarioDocs 600 8000 5)
        "2 more document(s)" = true) ∧
    ∀ (docs : List SearchResult) (mc mcc mcpd : ℕ), docs ≠ [] →
      format_documents_for_context docs mc mcc mcpd ≠ "" ∧
      (stripEndList (firstDocumentBlock docs mc mcc mcpd).data <+:
          (format_documents_for_context docs mc mcc mcpd).data ∨
        forcedTruncationMsg.data <:+ (format_documents_for_context docs mc mcc mcpd).data) := by
  constructor
  · exact ⟨by decide, by decide, by decide⟩
  · intro docs mc mcc mcpd hne
    obtain ⟨g, gs, hg⟩ : ∃ g gs, docs.foldl addToGroups [] = g :: gs := by
      rcases hgn : docs.foldl addToGroups [] with _ | ⟨g, gs⟩
      · exact absurd hgn (groups_ne_nil hne)
      · exact ⟨g, gs, rfl⟩
    have hempty : ¬(docs.isEmpty = true) := by
      cases docs with
      | nil => exact absurd rfl hne
      | cons d ds => simp
    obtain ⟨rest, hparts⟩ := renderLoop_first mc mcc mcpd (g :: gs).length g (gs.enumFrom 1)
    have hfmt : format_documents_for_context docs mc mcc mcpd =
        formatTail (pyStrip (pyJoin "\n" (renderGroup mc mcc mcpd 0 g :: rest))) mc := by
      unfold format_documents_for_context formatTail
      rw [if_neg hempty]
      simp only [hg, List.enum_cons, hparts]
    obtain ⟨bs, hB⟩ := renderGroup_data_head mc mcc mcpd 0 g
    have hfirst : firstDocumentBlock docs mc mcc mcpd = renderGroup mc mcc mcpd 0 g := by
      unfold firstDocumentBlock
      rw [hg]
    rw [hfmt, hfirst]
    exact formatTail_facts (renderGroup mc mcc mcpd 0 g) rest mc hB

theorem formatter_first_block_witness :
    format_documents_for_context [({} : SearchResult)] 130 8000 5 ≠ "" ∧
    (stripEndList (firstDocumentBlock [({} : SearchResult)] 130 8000 5).data <+:
        (format_documents_for_context [({} : SearchResult)] 130 8000 5).data ∨
      forcedTruncationMsg.data <:+
        (format_documents_for_context [({} : SearchResult)] 130 8000 5).data) :=
  formatter_first_block_and_truncation.2 [({} : SearchResult)] 130 8000 5 (by decide)
